import Mathlib

/-!
# Verification of the golem test-support harness

A shallow embedding, in Lean 4, of the two source files of this repository:

* `tests/golem/envs/localhost.py` — the localhost environment/runtime stub
  (`LocalhostPrerequisites`, `LocalhostAppHandler`, `LocalhostRuntime`);
* `scripts/node_integration_tests/helpers.py` — process supervision and
  non-blocking output streaming (`gracefully_shutdown`, `report_termination`,
  `get_output_queue`, `print_output`, `search_output`).

Python methods are translated as pure functions.  A method that can raise
returns `Except PyErr _`; a method that mutates `self` takes the state and
returns the new state.  Python `dict` fields are modelled as association
lists with `List.lookup`; Python `list` fields as `List`.  Machine-level
concerns (bytes vs str decoding, logging sinks) are modelled as the data
they carry.
-/

set_option autoImplicit false

namespace Golem

/-- Python exceptions that the embedded code can raise. -/
inductive PyErr where
  /-- `IndexError`: raised by `list.pop(0)` on an empty list. -/
  | indexError
  /-- `KeyError`: raised by `dict[key]` when `key` is absent. -/
  | keyError
  deriving DecidableEq, Repr

/-! ## `tests/golem/envs/localhost.py` — the Task-API handler stub -/

/-- `golem_task_api.structs.Subtask` is an external collaborator; the handler
stub never inspects it, only stores and pops it, so it is modelled as an
opaque token carrying an identifier. -/
structure Subtask where
  subtask_id : String
  deriving DecidableEq, Repr

/-- `LocalhostPrerequisites`: the fixture data the stub answers from.
`benchmark_result` is a Python `float` in the source; no claim depends on
its arithmetic, so it is modelled as a rational. -/
structure LocalhostPrerequisites where
  compute_results : List (String × String)
  benchmark_result : ℚ
  subtasks : List Subtask
  verify_results : List (String × (Bool × Option String))
  deriving Repr

/-- `LocalhostAppHandler`: holds the four fields copied from the
prerequisites in `__init__`. -/
structure LocalhostAppHandler where
  compute_results : List (String × String)
  benchmark_result : ℚ
  subtasks : List Subtask
  verify_results : List (String × (Bool × Option String))
  deriving Repr

/-- `LocalhostAppHandler.__init__(self, prereq)`. -/
def LocalhostAppHandler.make (prereq : LocalhostPrerequisites) :
    LocalhostAppHandler :=
  { compute_results := prereq.compute_results
    benchmark_result := prereq.benchmark_result
    subtasks := prereq.subtasks
    verify_results := prereq.verify_results }

/-- `next_subtask`: `return self._subtasks.pop(0)` — pops the first element
of the subtask list, raising `IndexError` when the list is empty.  The
returned handler is the post-state of `self`. -/
def LocalhostAppHandler.next_subtask (h : LocalhostAppHandler) :
    Except PyErr (Subtask × LocalhostAppHandler) :=
  match h.subtasks with
  | [] => .error .indexError
  | s :: rest => .ok (s, { h with subtasks := rest })

/-- `has_pending_subtasks`: `return bool(self._subtasks)`. -/
def LocalhostAppHandler.has_pending_subtasks (h : LocalhostAppHandler) :
    Bool :=
  !h.subtasks.isEmpty

/-- `compute`: `return self._compute_results[subtask_id]` — a dict lookup
that raises `KeyError` when the id is absent.  The method assigns no field,
so the post-state returned is `self` unchanged. -/
def LocalhostAppHandler.compute (h : LocalhostAppHandler)
    (subtask_id : String) :
    Except PyErr (String × LocalhostAppHandler) :=
  match h.compute_results.lookup subtask_id with
  | some r => .ok (r, h)
  | none => .error .keyError

/-- `verify`: `return self._verify_results[subtask_id]` — same shape as
`compute`. -/
def LocalhostAppHandler.verify (h : LocalhostAppHandler)
    (subtask_id : String) :
    Except PyErr ((Bool × Option String) × LocalhostAppHandler) :=
  match h.verify_results.lookup subtask_id with
  | some r => .ok (r, h)
  | none => .error .keyError

/-- `discard_subtasks`: `return []`. -/
def LocalhostAppHandler.discard_subtasks (h : LocalhostAppHandler)
    (_subtask_ids : List String) : List String × LocalhostAppHandler :=
  ([], h)

/-- `run_benchmark`: `return self._benchmark_result`. -/
def LocalhostAppHandler.run_benchmark (h : LocalhostAppHandler) :
    ℚ × LocalhostAppHandler :=
  (h.benchmark_result, h)

/-! ### The runtime lifecycle bridge (`LocalhostRuntime`) -/

/-- `golem_task_api.server.AppServer`: an external handle the runtime only
stores and tests against `None`; modelled as an opaque token. -/
structure AppServer where

/-- An `asyncio` event loop handle; opaque to the runtime's state. -/
structure EventLoop where

/-- A `threading.Thread` handle; opaque to the runtime's state. -/
structure WorkerThread where

/-- An arbitrary Python `Exception`, carrying its `str(e)` message. -/
structure PyException where
  msg : String
  deriving DecidableEq, Repr

/-- Modelled from the spec: the lifecycle state maintained by
`RuntimeBase` (`golem/envs/__init__.py`, which is not under `src/`; only
its subclass is).  The spec names the states
{uninitialized, prepared, started, stopped, torn_down, failed}. -/
inductive Lifecycle where
  | uninitialized
  | prepared
  | started
  | stopped
  | tornDown
  | failed
  deriving DecidableEq, Repr

/-- A twisted `Deferred` as a lifecycle method's completion signal; the
source constructs only `defer.succeed(...)` on these paths. -/
inductive Deferred (α : Type) where
  /-- `defer.succeed(a)`: already completed when returned. -/
  | succeed (a : α)
  deriving DecidableEq, Repr

/-- What a call to `LocalhostRuntime.stop()` hands back to its caller. -/
inductive StopOutcome where
  /-- One of `stop()`'s `assert` statements tripped: `AssertionError`
  propagates to the caller and nothing further runs. -/
  | assertionError
  /-- The stop submission
  `self._server_loop.run_until_complete(self._server.stop())` raised:
  `defer.fail()` is returned at once and the join is never attempted. -/
  | deferFail
  /-- The stop submission completed first; then
  `threads.deferToThread(self._server_thread.join, timeout=10)` is
  returned — a deferred that completes off the calling thread when the
  bounded join finishes. -/
  | joinInThread (timeout : Nat)
  deriving DecidableEq, Repr

/-- `LocalhostPayload`: launch command, shared working directory (a path,
modelled as its string), and the prerequisites. -/
structure LocalhostPayload where
  command : String
  shared_dir : String
  prerequisites : LocalhostPrerequisites

/-- `LocalhostRuntime`'s fields, exactly the ones `__init__` assigns,
plus the two `RuntimeBase` bookkeeping fields (lifecycle state and
recorded fault) that the spec describes. -/
structure LocalhostRuntime where
  command : String
  work_dir : String
  app_handler : LocalhostAppHandler
  server : Option AppServer
  server_loop : Option EventLoop
  server_thread : Option WorkerThread
  lifecycle : Lifecycle
  fault : Option PyException

/-- `LocalhostRuntime.__init__(self, payload)`: copies the payload fields,
builds the handler from the prerequisites, and sets `self._server`,
`self._server_loop` and `self._server_thread` to `None`. -/
def LocalhostRuntime.make (payload : LocalhostPayload) : LocalhostRuntime :=
  { command := payload.command
    work_dir := payload.shared_dir
    app_handler := .make payload.prerequisites
    server := none
    server_loop := none
    server_thread := none
    lifecycle := .uninitialized
    fault := none }

/-- Modelled from the spec: `RuntimeBase._prepared()` (not under `src/`)
signals the `uninitialized → prepared` transition. -/
def LocalhostRuntime.markPrepared (r : LocalhostRuntime) : LocalhostRuntime :=
  { r with lifecycle := .prepared }

/-- Modelled from the spec: `RuntimeBase._started()` (not under `src/`)
signals the `prepared → started` transition. -/
def LocalhostRuntime.markStarted (r : LocalhostRuntime) : LocalhostRuntime :=
  { r with lifecycle := .started }

/-- Modelled from the spec: `RuntimeBase._stopped()` (not under `src/`)
signals the `started → stopped` transition. -/
def LocalhostRuntime.markStopped (r : LocalhostRuntime) : LocalhostRuntime :=
  { r with lifecycle := .stopped }

/-- Modelled from the spec: `RuntimeBase._torn_down()` (not under `src/`)
signals the `stopped → torn_down` transition. -/
def LocalhostRuntime.markTornDown (r : LocalhostRuntime) : LocalhostRuntime :=
  { r with lifecycle := .tornDown }

/-- Modelled from the spec: `RuntimeBase._error_occurred(e, msg)` (not
under `src/`) transitions the runtime to `failed` and records the
fault. -/
def LocalhostRuntime.errorOccurred (r : LocalhostRuntime) (e : PyException) :
    LocalhostRuntime :=
  { r with lifecycle := .failed, fault := some e }

/-- `prepare()`: `self._prepared()` then `return defer.succeed(None)`. -/
def LocalhostRuntime.prepare (r : LocalhostRuntime) :
    LocalhostRuntime × Deferred Unit :=
  (r.markPrepared, .succeed ())

/-- `clean_up()`: `self._torn_down()` then `return defer.succeed(None)`. -/
def LocalhostRuntime.clean_up (r : LocalhostRuntime) :
    LocalhostRuntime × Deferred Unit :=
  (r.markTornDown, .succeed ())

/-- `_spawn_server()`: the worker thread's body.  It creates and installs
a fresh event loop, then drives the external `entrypoint(work_dir, argv,
requestor_handler, provider_handler)` coroutine to completion;
`entrypointResult` is that run's outcome.  An exception is caught by
`except Exception as e` and routed to `_error_occurred(e, str(e))`; a
normal return reaches the `else:` branch, `_stopped()`. -/
def LocalhostRuntime.spawn_server (r : LocalhostRuntime)
    (entrypointResult : Except PyException Unit) : LocalhostRuntime :=
  let r := { r with server_loop := some ⟨⟩ }
  match entrypointResult with
  | .error e => r.errorOccurred e
  | .ok _ => r.markStopped

/-- `start()`: `Thread(target=self._spawn_server).start()`, then
`self._started()`, then `return defer.succeed(None)`.  The thread handle
is stored and the `started` transition signalled immediately;
`_spawn_server` runs concurrently on the new thread and is a separate
step of the state machine (`Reachable.spawn`), so nothing here waits for
the server. -/
def LocalhostRuntime.start (r : LocalhostRuntime) :
    LocalhostRuntime × Deferred Unit :=
  ({ r with server_thread := some ⟨⟩ }.markStarted, .succeed ())

/-- `stop()`.  `submitOk` says whether the blocking stop submission
`self._server_loop.run_until_complete(self._server.stop())` completes
without raising — that is behaviour of the external server.  Program
order: the three `assert` statements, then the submission, and only
after it has completed (successfully or not) either the deferred join
(`threads.deferToThread(self._server_thread.join, timeout=10)`) or
`defer.fail()`.  No field of `self` is assigned. -/
def LocalhostRuntime.stop (r : LocalhostRuntime) (submitOk : Bool) :
    StopOutcome :=
  if r.server.isNone then .assertionError
  else if r.server_loop.isNone then .assertionError
  else if r.server_thread.isNone then .assertionError
  else if submitOk then .joinInThread 10
  else .deferFail

/-- The states of a `LocalhostRuntime` reachable through any interleaving
of its operations: construction, the orchestrator's lifecycle calls, and
the worker-thread body.  `stop()` assigns no field, so it contributes no
new state. -/
inductive Reachable : LocalhostRuntime → Prop where
  | init (payload : LocalhostPayload) : Reachable (.make payload)
  | prepare {r : LocalhostRuntime} : Reachable r → Reachable r.prepare.1
  | start {r : LocalhostRuntime} : Reachable r → Reachable r.start.1
  | spawn {r : LocalhostRuntime} (res : Except PyException Unit) :
      Reachable r → Reachable (r.spawn_server res)
  | clean_up {r : LocalhostRuntime} : Reachable r → Reachable r.clean_up.1

/-- A concrete fixture: the state of a `LocalhostRuntime` built from a
sample payload on which `prepare()` and then `start()` have completed. -/
def startedRuntime : LocalhostRuntime :=
  (LocalhostRuntime.make ⟨"test-command --port 1234", "/tmp/shared",
      ⟨[], 0, [], []⟩⟩).prepare.1.start.1

/-- The same fixture after the worker thread has additionally run the
server body to a normal completion. -/
def startedThenRanRuntime : LocalhostRuntime :=
  startedRuntime.spawn_server (.ok ())

/-! ## `scripts/node_integration_tests/helpers.py` — process supervision -/

namespace Helpers

/-- The observable actions `gracefully_shutdown` / `report_termination`
perform against the supervised process and the log, listed in program
order. -/
inductive ShutdownEvent where
  /-- `process.terminate()` — the termination request. -/
  | terminate
  /-- `print("Waiting for the %s subprocess to shut-down" ...)`. -/
  | logWaiting (node_type : String)
  /-- `process.wait(bound)` — block up to `bound` time-units. -/
  | waitCall (bound : Nat)
  /-- `print("%s subprocess exited with: %s" ...)` from `report_termination`. -/
  | logExit (node_type : String) (code : Int)
  /-- `print("%s graceful shutdown timed-out, issuing sigkill." ...)`. -/
  | logTimeout (node_type : String)
  /-- `process.kill()` — the forceful kill. -/
  | kill
  deriving DecidableEq, Repr

/-- `report_termination(exit_code, node_type)`: `if exit_code:` — logs the
exit code only when it is truthy (non-zero); a pure logging action, it
never raises. -/
def report_termination (exit_code : Int) (node_type : String) :
    List ShutdownEvent :=
  if exit_code ≠ 0 then [.logExit node_type exit_code] else []

/-- `gracefully_shutdown(process, node_type)`.  The supervised process's
behaviour is the parameter `wait60`: `some code` when `process.wait(60)`
returns `code` within the 60 time-unit bound, `none` when it raises
`subprocess.TimeoutExpired`.  The function is total: every branch returns
a trace, so `gracefully_shutdown` itself never raises. -/
def gracefully_shutdown (wait60 : Option Int) (node_type : String) :
    List ShutdownEvent :=
  .terminate :: .logWaiting node_type :: .waitCall 60 ::
    match wait60 with
    | some exit_code => report_termination exit_code node_type
    | none => [.logTimeout node_type, .kill]

/-- Number of `process.kill()` calls in a trace. -/
def killCount (tr : List ShutdownEvent) : Nat :=
  (tr.filter (· == ShutdownEvent.kill)).length

/-! ### The Output Relay (`get_output_queue` / `print_output`) -/

/-- State of one Output Relay.  `get_output_queue(process)` starts a
daemon reader thread running `for line in iter(stream.readline, b''):
q.put(line)`; consumers pop with `q.get_nowait()`.
`pending` — lines the stream has not yet yielded to the reader loop;
`queue` — lines currently in the `queue.Queue`, oldest first;
`output` — lines the consumer has already popped, in pop order.
(`print_output` writes each popped line utf-8-decoded behind a caller
prefix; that display decoration carries no information about ordering and
is not part of the relay state.) -/
structure RelayState where
  pending : List String
  queue : List String
  output : List String
  deriving DecidableEq, Repr

/-- One atomic step of the two concurrent loops touching the queue. -/
inductive RelayStep where
  /-- The reader thread completes one `stream.readline()` + `q.put(line)`.
  At end-of-stream (`b''`) the loop has exited and the step is a no-op. -/
  | produce
  /-- The consumer performs one `q.get_nowait()` inside the
  `print_output` drain loop and writes the line.  On an empty queue
  `get_nowait` raises `queue.Empty`, the drain returns, and the step is a
  no-op. -/
  | consume
  deriving DecidableEq, Repr

/-- Effect of one step on the relay state. -/
def relayStep : RelayStep → RelayState → RelayState
  | .produce, s =>
    match s.pending with
    | [] => s
    | l :: rest =>
      { pending := rest, queue := s.queue ++ [l], output := s.output }
  | .consume, s =>
    match s.queue with
    | [] => s
    | l :: rest =>
      { pending := s.pending, queue := rest, output := s.output ++ [l] }

/-- Run an arbitrary interleaving of reader and consumer steps. -/
def relayRun (sched : List RelayStep) (s : RelayState) : RelayState :=
  sched.foldl (fun st sp => relayStep sp st) s

/-! ### `search_output` -/

/-- Model of Python `re.match(pattern, line)` restricted to literal
patterns: `re.match` is anchored, so for a pattern without
metacharacters it succeeds exactly when the pattern occurs at the very
start of the line. -/
def reMatch (pattern line : String) : Bool :=
  pattern.data.isPrefixOf line.data

/-- `search_output(q, pattern)`: pops lines with `get_nowait` until one is
truthy (non-empty) and matches via `re.match`; returns the match at once
(here: the matched line's content), leaving the rest queued; returns
`None` when the queue raises `queue.Empty` first.  The second component is
the queue contents left after the call.  Structural recursion on the
queue: the function is total and never blocks. -/
def search_output (pattern : String) : List String → Option String × List String
  | [] => (none, [])
  | l :: rest =>
    if l ≠ "" ∧ reMatch pattern l = true then (some l, rest)
    else search_output pattern rest

end Helpers

/-! ## Theorems -/

open Helpers

/-- **C6.** For every handler constructed from prerequisites with
`subtasks = [A, B]`: the first `next_subtask` returns `A`, the second
returns `B`, a third call fails with `IndexError` (the out-of-range
condition of `list.pop(0)`), and `has_pending_subtasks` is `true`,
`true`, `false` before the respective calls. -/
theorem next_subtask_fifo_order (A B : Subtask)
    (cr : List (String × String)) (br : ℚ)
    (vr : List (String × (Bool × Option String))) :
    let h0 := LocalhostAppHandler.make ⟨cr, br, [A, B], vr⟩
    let h1 := { h0 with subtasks := [B] }
    let h2 := { h0 with subtasks := [] }
    h0.has_pending_subtasks = true ∧
    h0.next_subtask = .ok (A, h1) ∧
    h1.has_pending_subtasks = true ∧
    h1.next_subtask = .ok (B, h2) ∧
    h2.has_pending_subtasks = false ∧
    h2.next_subtask = .error .indexError :=
  ⟨rfl, rfl, rfl, rfl, rfl, rfl⟩

/-- **C7.** `compute(subtask_id)` returns `compute_results[subtask_id]`
with the handler unmutated when the id is present and raises `KeyError`
otherwise; `verify(subtask_id)` behaves the same against
`verify_results`. -/
theorem compute_verify_lookup :
    (∀ (h : LocalhostAppHandler) (i r : String),
        h.compute_results.lookup i = some r → h.compute i = .ok (r, h)) ∧
    (∀ (h : LocalhostAppHandler) (i : String),
        h.compute_results.lookup i = none → h.compute i = .error .keyError) ∧
    (∀ (h : LocalhostAppHandler) (i : String) (v : Bool × Option String),
        h.verify_results.lookup i = some v → h.verify i = .ok (v, h)) ∧
    (∀ (h : LocalhostAppHandler) (i : String),
        h.verify_results.lookup i = none → h.verify i = .error .keyError) := by
  refine ⟨fun h i r hl => ?_, fun h i hl => ?_, fun h i v hl => ?_,
    fun h i hl => ?_⟩ <;>
  simp [LocalhostAppHandler.compute, LocalhostAppHandler.verify, hl]

/-- Witness for C7 on a concrete handler: one present id and one absent
id, for each of `compute` and `verify`. -/
theorem compute_verify_lookup_witness :
    (LocalhostAppHandler.make
        ⟨[("s1", "res1")], 0, [], [("s1", (true, none))]⟩).compute "s1"
      = .ok ("res1", LocalhostAppHandler.make
        ⟨[("s1", "res1")], 0, [], [("s1", (true, none))]⟩) ∧
    (LocalhostAppHandler.make
        ⟨[("s1", "res1")], 0, [], [("s1", (true, none))]⟩).compute "s2"
      = .error .keyError ∧
    (LocalhostAppHandler.make
        ⟨[("s1", "res1")], 0, [], [("s1", (true, none))]⟩).verify "s1"
      = .ok ((true, none), LocalhostAppHandler.make
        ⟨[("s1", "res1")], 0, [], [("s1", (true, none))]⟩) ∧
    (LocalhostAppHandler.make
        ⟨[("s1", "res1")], 0, [], [("s1", (true, none))]⟩).verify "s2"
      = .error .keyError :=
  ⟨compute_verify_lookup.1 _ "s1" "res1" rfl,
   compute_verify_lookup.2.1 _ "s2" rfl,
   compute_verify_lookup.2.2.1 _ "s1" (true, none) rfl,
   compute_verify_lookup.2.2.2 _ "s2" rfl⟩

/-- **C5.** `gracefully_shutdown` first sends the termination request,
then waits up to 60 time-units.  If the process exits within the bound,
the exit code is reported via `report_termination` (non-zero → one
informational log entry, zero → silence; never an error) and no kill
happens.  If the bound is exceeded, the trace ends with exactly one
forceful kill, with no further wait after it; the function is total, so
it returns without raising in every case. -/
theorem gracefully_shutdown_two_phase (nt : String) :
    (∀ c : Int,
        gracefully_shutdown (some c) nt
          = [.terminate, .logWaiting nt, .waitCall 60]
              ++ report_termination c nt ∧
        killCount (gracefully_shutdown (some c) nt) = 0) ∧
    (∀ c : Int, c ≠ 0 → report_termination c nt = [.logExit nt c]) ∧
    report_termination 0 nt = [] ∧
    gracefully_shutdown none nt
      = [.terminate, .logWaiting nt, .waitCall 60, .logTimeout nt, .kill] ∧
    killCount (gracefully_shutdown none nt) = 1 := by
  refine ⟨fun c => ⟨rfl, ?_⟩, fun c hc => ?_, rfl, rfl, rfl⟩
  · simp only [killCount, gracefully_shutdown, report_termination]
    split <;> simp
  · simp [report_termination, hc]

/-- Witness for C5 at a concrete node and exit codes 7 (reported) and a
timed-out wait (killed exactly once). -/
theorem gracefully_shutdown_two_phase_witness :
    gracefully_shutdown (some 7) "provider"
      = [.terminate, .logWaiting "provider", .waitCall 60,
         .logExit "provider" 7] ∧
    report_termination 7 "provider" = [.logExit "provider" 7] ∧
    killCount (gracefully_shutdown (some 7) "provider") = 0 ∧
    killCount (gracefully_shutdown none "provider") = 1 :=
  ⟨by
    have h := ((gracefully_shutdown_two_phase "provider").1 7).1
    rw [h, (gracefully_shutdown_two_phase "provider").2.1 7 (by decide)]
    rfl,
   (gracefully_shutdown_two_phase "provider").2.1 7 (by decide),
   ((gracefully_shutdown_two_phase "provider").1 7).2,
   (gracefully_shutdown_two_phase "provider").2.2.2.2⟩

/-- Each single relay step preserves the concatenation
`output ++ queue ++ pending`: a line is only ever moved between the
three segments, never duplicated, dropped, or reordered. -/
theorem relayStep_concat (sp : RelayStep) (s : RelayState) :
    (relayStep sp s).output ++ (relayStep sp s).queue
        ++ (relayStep sp s).pending
      = s.output ++ s.queue ++ s.pending := by
  cases sp with
  | produce =>
    cases h : s.pending with
    | nil => simp [relayStep, h]
    | cons l rest => simp [relayStep, h]
  | consume =>
    cases h : s.queue with
    | nil => simp [relayStep, h]
    | cons l rest => simp [relayStep, h]

/-- The conservation of `relayStep_concat`, extended to any schedule. -/
theorem relayRun_concat (sched : List RelayStep) (s : RelayState) :
    (relayRun sched s).output ++ (relayRun sched s).queue
        ++ (relayRun sched s).pending
      = s.output ++ s.queue ++ s.pending := by
  induction sched generalizing s with
  | nil => rfl
  | cons sp rest ih =>
    have hstep : relayRun (sp :: rest) s = relayRun rest (relayStep sp s) :=
      rfl
    rw [hstep]
    exact (ih (relayStep sp s)).trans (relayStep_concat sp s)

/-- **C8.** For every sequence of lines emitted on the supervised
process's output stream and every interleaving of the reader thread's
pushes with the consumer's non-blocking pops: once the stream is
exhausted and the queue drained empty, the consumer has received exactly
the emitted lines, in emission order — a pure FIFO with no reordering,
duplication, or loss. -/
theorem relay_fifo_order (lines : List String) (sched : List RelayStep)
    (hp : (relayRun sched ⟨lines, [], []⟩).pending = [])
    (hq : (relayRun sched ⟨lines, [], []⟩).queue = []) :
    (relayRun sched ⟨lines, [], []⟩).output = lines := by
  have h := relayRun_concat sched ⟨lines, [], []⟩
  rw [hp, hq] at h
  simpa using h

/-- Witness for C8: two lines, with the consumer's polls interleaved
between the pushes (including a poll against the still-empty queue). -/
theorem relay_fifo_order_witness :
    (relayRun [.consume, .produce, .consume, .produce, .consume]
        ⟨["line one", "line two"], [], []⟩).output
      = ["line one", "line two"] :=
  relay_fifo_order ["line one", "line two"]
    [.consume, .produce, .consume, .produce, .consume] rfl rfl

/-- **C9.** If the pattern matches line `k` of the queue and no earlier
line, `search_output` returns the match on line `k`'s content and leaves
exactly the lines after `k` queued — lines 1..k are consumed and never
seen again by later calls; and if no queued line matches, the whole
queue is consumed and `None` returned.  (`search_output` is structurally
recursive on the queue contents, so it never blocks.) -/
theorem search_output_consumes_to_match :
    (∀ (pat lk : String) (pre post : List String),
        (∀ l ∈ pre, reMatch pat l = false) → lk ≠ "" →
        reMatch pat lk = true →
        search_output pat (pre ++ lk :: post) = (some lk, post)) ∧
    (∀ (pat : String) (q : List String),
        (∀ l ∈ q, reMatch pat l = false) →
        search_output pat q = (none, [])) := by
  constructor
  · intro pat lk pre post hpre hne hk
    induction pre with
    | nil => simp [search_output, hne, hk]
    | cons a as ih =>
      have ha : reMatch pat a = false := hpre a (by simp)
      simp only [List.cons_append, search_output, ha]
      exact (if_neg (by simp)).trans
        (ih fun l hl => hpre l (List.mem_cons_of_mem a hl))
  · intro pat q hq
    induction q with
    | nil => rfl
    | cons a as ih =>
      have ha : reMatch pat a = false := hq a (by simp)
      simp only [search_output, ha]
      exact (if_neg (by simp)).trans
        (ih fun l hl => hq l (List.mem_cons_of_mem a hl))

/-- Witness for C9: the pattern matches the third queued line only; the
lines up to and including it are consumed, the rest remain; and an
absent pattern consumes everything and yields `None`. -/
theorem search_output_consumes_to_match_witness :
    search_output "Node started" ["boot", "Node started ok", "later"]
      = (some "Node started ok", ["later"]) ∧
    search_output "absent" ["boot", "later"] = (none, []) :=
  ⟨search_output_consumes_to_match.1 "Node started" "Node started ok"
      ["boot"] ["later"] (by decide) (by decide) (by decide),
   search_output_consumes_to_match.2 "absent" ["boot", "later"]
      (by decide)⟩

/-- **C2.** `start()` stores the launched worker-thread handle, signals
the `started` transition synchronously at thread-launch time, and
returns an already-completed deferred — all independent of the server:
the event loop (created only later, by the worker thread's own body) is
untouched, so nothing in `start()` waits for server readiness. -/
theorem start_signals_started_at_thread_launch (r : LocalhostRuntime) :
    r.start.1.lifecycle = .started ∧
    r.start.1.server_thread = some ⟨⟩ ∧
    r.start.2 = .succeed () ∧
    r.start.1.server_loop = r.server_loop :=
  ⟨rfl, rfl, rfl, rfl⟩

/-- **C4.** The worker-thread body `_spawn_server` catches an exception
raised by the server entry point and records it: the runtime transitions
to `failed` with the fault stored (the function is total — nothing
propagates out of the thread body).  When the entry point returns
normally, the runtime transitions to `stopped` from the worker thread
itself. -/
theorem spawn_server_failed_or_stopped (r : LocalhostRuntime) :
    (∀ e : PyException,
        (r.spawn_server (.error e)).lifecycle = .failed ∧
        (r.spawn_server (.error e)).fault = some e) ∧
    (r.spawn_server (.ok ())).lifecycle = .stopped :=
  ⟨fun _ => ⟨rfl, rfl⟩, rfl⟩

/-- **C3.** Invariant: `_server` is `None` at construction and no
operation of the class ever assigns it, so every reachable state of a
`LocalhostRuntime` — in particular any state after a completed
`start()` — has `_server = None`; consequently `stop()`'s first
assertion (`assert self._server is not None`) trips in every reachable
state, whatever the would-be submission outcome. -/
theorem server_field_always_none {r : LocalhostRuntime}
    (hr : Reachable r) :
    r.server = none ∧ ∀ submitOk : Bool, r.stop submitOk = .assertionError := by
  have hs : r.server = none := by
    induction hr with
    | init payload => rfl
    | prepare _ ih => exact ih
    | start _ ih => exact ih
    | spawn res _ ih => cases res <;> exact ih
    | clean_up _ ih => exact ih
  exact ⟨hs, fun submitOk => by simp [LocalhostRuntime.stop, hs]⟩

/-- Witness for C3 at the state reached by `__init__`, `prepare()`,
`start()` and a completed worker-thread run. -/
theorem server_field_always_none_witness :
    ((LocalhostRuntime.make ⟨"test-command --port 1234", "/tmp/shared",
          ⟨[], 0, [], []⟩⟩).prepare.1.start.1.spawn_server (.ok ())).server
      = none ∧
    ((LocalhostRuntime.make ⟨"test-command --port 1234", "/tmp/shared",
          ⟨[], 0, [], []⟩⟩).prepare.1.start.1.spawn_server (.ok ())).stop true
      = .assertionError :=
  ⟨(server_field_always_none
      (((Reachable.init _).prepare.start).spawn (.ok ()))).1,
   (server_field_always_none
      (((Reachable.init _).prepare.start).spawn (.ok ()))).2 true⟩

/-- **C1.** Evaluation at the failing input: after `prepare()` and a
completed `start()` — even after the worker thread has additionally run
the server body to completion — `stop()` trips its very first assertion
(`assert self._server is not None`), because no operation ever assigns
`_server`.  The submission/join choreography the source contains after
the asserts is reached only if `_server` were assigned: patching exactly
that one field makes `stop()` return the 10-unit deferred join on a
successful submission and immediate failure on a raising one. -/
theorem stop_after_start_always_asserts :
    startedRuntime.lifecycle = .started ∧
    startedRuntime.stop true = .assertionError ∧
    startedRuntime.stop false = .assertionError ∧
    startedThenRanRuntime.stop true = .assertionError ∧
    startedThenRanRuntime.stop false = .assertionError ∧
    ({ startedThenRanRuntime with server := some ⟨⟩ }
        : LocalhostRuntime).stop true = .joinInThread 10 ∧
    ({ startedThenRanRuntime with server := some ⟨⟩ }
        : LocalhostRuntime).stop false = .deferFail :=
  ⟨rfl, rfl, rfl, rfl, rfl, rfl, rfl⟩

/-- **C10.** Matching is anchored at the start of each line, because the
source uses `re.match`: a pattern that does occur inside a line but not
at its first character produces no match, yet the line is still consumed
from the queue. -/
theorem search_output_match_anchored (pat l : String)
    (_hocc : pat.data <:+: l.data) (hnp : reMatch pat l = false) :
    search_output pat [l] = (none, []) := by
  simp [search_output, hnp]

/-- Witness for C10: `"err"` occurs in `"boot: err"` but only mid-line,
so the anchored match fails and the line is consumed without a match. -/
theorem search_output_match_anchored_witness :
    ("err".data <:+: "boot: err".data) ∧
    reMatch "err" "boot: err" = false ∧
    search_output "err" ["boot: err"] = (none, []) :=
  ⟨by decide, by decide,
   search_output_match_anchored "err" "boot: err" (by decide) (by decide)⟩

end Golem
